import Mathlib

/-!
Verification of the finops EC2-notification Lambda against its specification.

The development shallowly embeds the two source files:
  * `src/app/lambda_function.py` — `get_creator_of_instance` (the actor
    resolver), `send_ec2_event_to_slack` (strict renderer), `send_message`,
    `lambda_handler`;
  * `src/app/slack/slack_templates.py` — `create_ec2_event_message`
    (defensive renderer).

Python dictionaries with a known key set are embedded as structures whose
fields are `Option`-valued (a `none` field models a missing key or a JSON
`null`; the two are indistinguishable to the `.get` accesses the code
performs).  Python exceptions are embedded as an `Except PyExc` result;
fallible operations (`d[k]` subscripts, `list[-k]` indexing, `int(...)`,
attribute access on `None`) return the exception the interpreter would
raise.  Randomized list picks (`random.randint`) are embedded as explicit
`Fin 5` draw arguments.
-/

namespace FinOps

/-- The Python exception classes distinguishable on the embedded code paths. -/
inductive PyExc where
  | keyError
  | attributeError
  | valueError
  | typeError
  | indexError
  | jsonDecodeError
  deriving DecidableEq, Repr

/-! ### Python primitive semantics -/

/-- Python `str.split(sep)` for a single-character separator, on the
character list of the string.  `"".split(sep) == [""]`, and empty pieces
between adjacent separators are kept, exactly as in Python. -/
def splitChars (sep : Char) : List Char → List (List Char)
  | [] => [[]]
  | c :: cs =>
    if c = sep then [] :: splitChars sep cs
    else
      match splitChars sep cs with
      | [] => [[c]]
      | h :: t => (c :: h) :: t

/-- Python `s.split(sep)` for a single-character separator. -/
def pySplit (s : String) (sep : Char) : List String :=
  (splitChars sep s.data).map (fun l => String.mk l)

/-- Python negative indexing `l[-k]` (for `k ≥ 1`): raises `IndexError`
when `k` exceeds the list length. -/
def pyNegIdx (l : List String) (k : Nat) : Except PyExc String :=
  match l.reverse.get? (k - 1) with
  | some s => .ok s
  | none => .error .indexError

/-- `s.split(sep)` where `s` may be Python `None`: attribute access on
`None` raises `AttributeError`. -/
def pySplitOpt (o : Option String) (sep : Char) : Except PyExc (List String) :=
  match o with
  | none => .error .attributeError
  | some s => .ok (pySplit s sep)

/-- Python truthiness of an optional string: `None` and `""` are falsy. -/
def pyTruthy (o : Option String) : Bool :=
  match o with
  | none => false
  | some s => !(s == "")

/-- Python `str(x)` for an optional string (`str(None) == "None"`). -/
def pyStrOpt (o : Option String) : String :=
  match o with
  | none => "None"
  | some s => s

/-- Python `s.lower()` (ASCII characters, the only ones the compared
literals contain). -/
def pyLower (s : String) : String :=
  String.mk (s.data.map Char.toLower)

/-- Python `s.capitalize()`: first character upper-cased, the rest
lower-cased. -/
def pyCapitalize (s : String) : String :=
  match s.data with
  | [] => ""
  | c :: cs => String.mk (c.toUpper :: cs.map Char.toLower)

/-- Characters stripped by Python `int(str)` before parsing. -/
def isPyIntSpace (c : Char) : Bool :=
  c = ' ' || c = '\t' || c = '\n' || c = '\r'

/-- Digit-list value. -/
def digitsVal (l : List Char) : Nat :=
  l.foldl (fun a c => a * 10 + (c.toNat - ('0').toNat)) 0

/-- Python `int(s)` on a string: strips surrounding whitespace, accepts an
optional sign followed by one or more decimal digits, otherwise raises
`ValueError`.  (Underscore digit separators and non-ASCII digits, which
Python also accepts, do not occur in this repository's data and are not
modelled.) -/
def parseIntPy (s : String) : Except PyExc Int :=
  let cs := (s.data.dropWhile isPyIntSpace).reverse.dropWhile isPyIntSpace |>.reverse
  let (neg, ds) :=
    match cs with
    | '-' :: rest => (true, rest)
    | '+' :: rest => (false, rest)
    | rest => (false, rest)
  if ds = [] then .error .valueError
  else if ds.all (·.isDigit) then
    .ok (if neg then -(digitsVal ds : Int) else (digitsVal ds : Int))
  else .error .valueError

/-! ### Timestamp formatting

`get_creator_of_instance` formats the CloudTrail `EventTime` as
`event_time.astimezone(timezone(timedelta(hours=8))).strftime("%Y%m%d %H:%M:%S")`.
`EventTime` is embedded as seconds since the Unix epoch (UTC); shifting to
the fixed UTC+8 offset adds `8 * 3600` wall-clock seconds, after which the
civil date is recovered with the standard days-to-civil conversion. -/

/-- Civil `(year, month, day)` from days since 1970-01-01 (proleptic
Gregorian). -/
def civilFromDays (z0 : Nat) : Nat × Nat × Nat :=
  let z := z0 + 719468
  let era := z / 146097
  let doe := z % 146097
  let yoe := (doe - doe / 1460 + doe / 36524 - doe / 146097) / 365
  let y := yoe + era * 400
  let doy := doe - (365 * yoe + yoe / 4 - yoe / 100)
  let mp := (5 * doy + 2) / 153
  let d := doy - (153 * mp + 2) / 5 + 1
  let m := if mp < 10 then mp + 3 else mp - 9
  (if m ≤ 2 then y + 1 else y, m, d)

/-- Zero-padded two-digit field (`%m%d`, `%H`, `%M`, `%S`). -/
def twoDigits (n : Nat) : String :=
  if n < 10 then "0" ++ toString n else toString n

/-- Zero-padded four-digit year (`%Y`). -/
def fourDigits (n : Nat) : String :=
  if n < 10 then "000" ++ toString n
  else if n < 100 then "00" ++ toString n
  else if n < 1000 then "0" ++ toString n
  else toString n

/-- `"%Y%m%d %H:%M:%S"` over already-split civil fields. -/
def fmtStamp (y mo d h mi s : Nat) : String :=
  fourDigits y ++ twoDigits mo ++ twoDigits d ++ " " ++
    twoDigits h ++ ":" ++ twoDigits mi ++ ":" ++ twoDigits s

/-- The full `astimezone(UTC+8).strftime("%Y%m%d %H:%M:%S")` pipeline on an
epoch-second timestamp (the UTC+8 wall clock is `epoch + 8 * 3600`). -/
def strftimeUtc8 (epoch : Nat) : String :=
  match civilFromDays ((epoch + 8 * 3600) / 86400) with
  | (y, mo, d) =>
    fmtStamp y mo d (((epoch + 8 * 3600) % 86400) / 3600)
      ((((epoch + 8 * 3600) % 86400) % 3600) / 60) (((epoch + 8 * 3600) % 86400) % 60)

/-! ### CloudTrail event records (input to `get_creator_of_instance`) -/

/-- One element of an `instancesSet.items` list. -/
structure Item where
  instanceId : Option String := none
  deriving DecidableEq, Repr

/-- An `instancesSet` object. -/
structure InstancesSet where
  items : Option (List Item) := none
  deriving DecidableEq, Repr

/-- A `responseElements` / `requestParameters` object. -/
structure TrailLocation where
  instancesSet : Option InstancesSet := none
  deriving DecidableEq, Repr

/-- A `sessionContext.sessionIssuer` object. -/
structure SessionIssuer where
  arn : Option String := none
  deriving DecidableEq, Repr

/-- A `sessionContext` object. -/
structure SessionContext where
  sessionIssuer : Option SessionIssuer := none
  deriving DecidableEq, Repr

/-- A `userIdentity` object.  The JSON field `"type"` is embedded as
`utype` (`type` is a Lean keyword). -/
structure UserIdentity where
  userName : Option String := none
  arn : Option String := none
  utype : Option String := none
  accountId : Option String := none
  sessionContext : Option SessionContext := none
  deriving DecidableEq, Repr

/-- The parsed `CloudTrailEvent` JSON payload (only the fields the code
reads). -/
structure CloudTrailEvt where
  responseElements : Option TrailLocation := none
  requestParameters : Option TrailLocation := none
  userIdentity : Option UserIdentity := none
  deriving DecidableEq, Repr

/-- One record of a `lookup_events` page.  `cloudTrailEvent = none` models
a record whose `"CloudTrailEvent"` key is missing (`KeyError`) or whose
payload is unparseable (`json.JSONDecodeError`); the two raise exceptions
that the source catches identically.  `eventTime` is epoch seconds UTC;
`none` models a missing `"EventTime"` key (`KeyError`, also caught). -/
structure EventRec where
  cloudTrailEvent : Option CloudTrailEvt := none
  eventTime : Option Nat := none
  deriving DecidableEq, Repr

/-- The dictionary returned by `get_creator_of_instance` on a match. -/
structure Creator where
  time : String
  user_arn : String
  username : String
  deriving DecidableEq, Repr

/-! ### The actor resolver (`get_creator_of_instance`) -/

/-- `evt.get(loc, {}).get("instancesSet", {}).get("items", [])`. -/
def itemsOf (loc : Option TrailLocation) : List Item :=
  ((loc.bind (·.instancesSet)).bind (·.items)).getD []

/-- The item list the code settles on: `responseElements` first, falling
back to `requestParameters` only when the former is (falsy) empty. -/
def extractItems (evt : CloudTrailEvt) : List Item :=
  if (itemsOf evt.responseElements).isEmpty then itemsOf evt.requestParameters
  else itemsOf evt.responseElements

/-- `[it.get("instanceId") for it in items if it.get("instanceId")]`:
keeps only truthy (present and non-empty) instance IDs. -/
def idsOfItems (items : List Item) : List String :=
  items.filterMap (fun it =>
    match it.instanceId with
    | none => none
    | some s => if s = "" then none else some s)

/-- The candidate instance-ID list of a parsed event payload. -/
def candidateIds (evt : CloudTrailEvt) : List String :=
  idsOfItems (extractItems evt)

/-- `user_identity.get("sessionContext", {}).get("sessionIssuer", {}).get("arn")`. -/
def issuerArnOf (u : UserIdentity) : Option String :=
  (u.sessionContext.bind (·.sessionIssuer)).bind (·.arn)

/-- The username fallback chain of lines 169–182 of
`src/app/lambda_function.py`, entered when `userIdentity.get("userName")`
is falsy. -/
def fallbackUsername (u : UserIdentity) : Except PyExc String :=
  if pyTruthy (issuerArnOf u) then
    match pyNegIdx (pySplit ((issuerArnOf u).getD "") '/') 1 with
    | .error e => .error e
    | .ok last => .ok (last ++ " (AssumedRole)")
  else if u.utype == some "AssumedRole" then
    match pySplitOpt u.arn '/' with
    | .error e => .error e
    | .ok parts =>
      match pyNegIdx parts 2 with
      | .error e => .error e
      | .ok seg2 =>
        match pyNegIdx (pySplit seg2 ':') 1 with
        | .error e => .error e
        | .ok role =>
          match pyNegIdx parts 1 with
          | .error e => .error e
          | .ok sess => .ok (role ++ "/" ++ sess ++ " (AssumedRole)")
  else if u.utype == some "FederatedUser" then
    match pySplitOpt u.arn '/' with
    | .error e => .error e
    | .ok parts =>
      match pyNegIdx parts 1 with
      | .error e => .error e
      | .ok last => .ok (last ++ " (Federated)")
  else if u.utype == some "AWSAccount" then
    .ok ("Account:" ++ pyStrOpt u.accountId)
  else
    .ok (u.utype.getD "<unknown_identity>")

/-- `username = user_identity.get("userName"); if not username: <fallback>`. -/
def computeUsername (u : UserIdentity) : Except PyExc String :=
  match u.userName with
  | none => fallbackUsername u
  | some s => if s = "" then fallbackUsername u else .ok s

/-- `user_identity = evt.get("userIdentity", {})`. -/
def userIdentityOf (evt : CloudTrailEvt) : UserIdentity :=
  evt.userIdentity.getD {}

/-- The body of the per-record `try` block (lines 144–192): parse the
payload, match the candidate IDs against the target, derive the username,
and return the creator dictionary only when the identity ARN is truthy. -/
def recordAttempt (target : String) (rec : EventRec) : Except PyExc (Option Creator) :=
  match rec.cloudTrailEvent with
  | none => .error .jsonDecodeError
  | some evt =>
    if (candidateIds evt).contains target then
      match computeUsername (userIdentityOf evt) with
      | .error e => .error e
      | .ok username =>
        if pyTruthy (userIdentityOf evt).arn then
          match rec.eventTime with
          | none => .error .keyError
          | some t =>
            .ok (some { time := strftimeUtc8 t,
                        user_arn := (userIdentityOf evt).arn.getD "",
                        username := username })
        else .ok none
    else .ok none

/-- One loop iteration over an event record, with the source's
`except (json.JSONDecodeError, KeyError, AttributeError): continue`
clause: those three exceptions skip the record; any other exception
(notably `IndexError`) propagates. -/
def processRecord (target : String) (rec : EventRec) : Except PyExc (Option Creator) :=
  match recordAttempt target rec with
  | .error .jsonDecodeError => .ok none
  | .error .keyError => .ok none
  | .error .attributeError => .ok none
  | .error e => .error e
  | .ok r => .ok r

/-- Scan the records of one page in order, returning on the first
accepted match. -/
def scanRecords (target : String) : List EventRec → Except PyExc (Option Creator)
  | [] => .ok none
  | r :: rs =>
    match processRecord target r with
    | .error e => .error e
    | .ok (some c) => .ok (some c)
    | .ok none => scanRecords target rs

/-- Consume one event name's pages (the `while True` pagination loop) in
order. -/
def scanPages (target : String) : List (List EventRec) → Except PyExc (Option Creator)
  | [] => .ok none
  | p :: ps =>
    match scanRecords target p with
    | .error e => .error e
    | .ok (some c) => .ok (some c)
    | .ok none => scanPages target ps

/-- The outer `for event_name in event_names` loop: one event name's pages
are exhausted before the next name begins. -/
def scanNames (target : String) (svc : String → List (List EventRec)) :
    List String → Except PyExc (Option Creator)
  | [] => .ok none
  | n :: ns =>
    match scanPages target (svc n) with
    | .error e => .error e
    | .ok (some c) => .ok (some c)
    | .ok none => scanNames target svc ns

/-- `name_map.get(event_state.lower())` of lines 113–118. -/
def nameMapGet (s : String) : Option (List String) :=
  if s = "running" then some ["RunInstances", "StartInstances"]
  else if s = "stopping" then some ["StopInstances"]
  else if s = "terminated" then some ["TerminateInstances"]
  else none

/-- `get_creator_of_instance`, with the paginated audit-log service
abstracted as the pages it yields per event name (`svc`).  Raising
`ValueError` on an unsupported state is the `.error .valueError` result;
returning `None` after an exhausted scan is `.ok none`. -/
def getCreatorOfInstance (target state : String)
    (svc : String → List (List EventRec)) : Except PyExc (Option Creator) :=
  match nameMapGet (pyLower state) with
  | none => .error .valueError
  | some names => scanNames target svc names

/-! ### Renderer inputs -/

/-- The `ebs_volume_size` dictionary value: an integer, a string (e.g.
`"unknown"` from `get_instance_info`), or Python `None` (`nullv`). -/
inductive EbsVal where
  | int (n : Int)
  | str (s : String)
  | nullv
  deriving DecidableEq, Repr

/-- Python `str(x)` of an `ebs_volume_size` value. -/
def pyShowEbsVal : EbsVal → String
  | .int n => toString n
  | .str s => s
  | .nullv => "None"

/-- `int(x)` on an `ebs_volume_size` value: `ValueError` on a non-numeric
string, `TypeError` on `None`. -/
def pyIntEbs : EbsVal → Except PyExc Int
  | .int n => .ok n
  | .str s => parseIntPy s
  | .nullv => .error .typeError

/-- The `instance_info` dictionary (keys optionally missing). -/
structure InstanceInfo where
  instance_type : Option String := none
  name : Option String := none
  ebs_volume_size : Option EbsVal := none
  ebs_volume_type : Option String := none
  tags : Option (List (String × String)) := none
  deriving DecidableEq, Repr

/-- The `creator_info` dictionary (keys optionally missing).  The resolver
returns either such a dictionary or `None`; renderer arguments therefore
have type `Option CreatorInfo`, with `none` the resolver's absent value. -/
structure CreatorInfo where
  time : Option String := none
  user_arn : Option String := none
  username : Option String := none
  deriving DecidableEq, Repr

/-- Dictionary subscript `d[k]` on a present dictionary: `KeyError` when
the key is missing. -/
def isub {α : Type} (o : Option α) : Except PyExc α :=
  match o with
  | none => .error .keyError
  | some v => .ok v

/-- `creator_info[k]` where `creator_info` may be `None`: subscripting
`None` raises `TypeError`. -/
def csub (d : Option CreatorInfo) (f : CreatorInfo → Option String) : Except PyExc String :=
  match d with
  | none => .error .typeError
  | some c => isub (f c)

/-- `creator_info.get(k, dflt)` where `creator_info` may be `None`:
attribute access on `None` raises `AttributeError`. -/
def cget (d : Option CreatorInfo) (f : CreatorInfo → Option String) (dflt : String) :
    Except PyExc String :=
  match d with
  | none => .error .attributeError
  | some c => .ok ((f c).getD dflt)

/-- A `json.dumps` of a string-to-string tag mapping (no escaping of
special characters inside keys or values, which do not occur here). -/
def pyDumpsTags (l : List (String × String)) : String :=
  "\x7b" ++
    String.intercalate ", " (l.map (fun kv => "\"" ++ kv.1 ++ "\": \"" ++ kv.2 ++ "\"")) ++
  "\x7d"

/-- One Slack block of the rendered payload, tagged by its variant. -/
inductive Block where
  | header (text : String)
  | sectionText (text : String)
  | divider
  | sectionFields (fields : List String)
  | sectionButton (text : String) (buttonText : String) (url : String)
  deriving DecidableEq, Repr

/-- The `action_title_map` literal shared verbatim by both renderer
revisions, accessed with `.get`. -/
def actionTitleGet (action : String) : Option String :=
  if action = "running" then some "🚀 EC2 Instance Started 🚀"
  else if action = "terminated" then some "💀 EC2 Instance Terminated 💀"
  else if action = "stopping" then some "😴 EC2 Instance Stopping 😴"
  else none

/-- The `reminders` pool for the `running` subtitle. -/
def reminders : List String :=
  ["Billing is charging from this moment.",
   "Hourly charges are now in effect.",
   "Running and generating costs.",
   "Monitor usage to control expenses.",
   "Ensure you stop the instance when not needed."]

/-- The `ec2_stop_reminders` pool for the `stopping` subtitle. -/
def ec2StopReminders : List String :=
  ["EBS volume storage charges continuely.",
   "Persistent EBS and allocated Elastic IP COSTS still apply.",
   "Stopping an EC2 instance does not STOP EBS or Elastic IP COSTS.",
   "EC2 instance is stopped; you will continue to incur EBS volume FEES.",
   "Remember to release Elastic IPs and delete unused volumes to avoid CHARGES.",]

/-- The console-link URL template shared by both renderer revisions. -/
def consoleUrl (region iid : String) : String :=
  "https://" ++ region ++ ".console.aws.amazon.com/ec2/home?region=" ++ region ++
    "#InstanceDetails:instanceId=" ++ iid

/-- The `"\n⚠️ Large EBS ⚠️"` warning suffix. -/
def largeEbsWarn : String := "\n⚠️ Large EBS ⚠️"

/-! ### `send_ec2_event_to_slack` (`src/app/lambda_function.py`, lines 206–323)

This revision subscripts every dictionary directly (`d[k]`), so missing
keys raise.  The `action_sub_title_map` dict literal evaluates all three
state values eagerly, `creator_info['username']` among them, before any
selection by `action_type`.  The order of the fallible steps below follows
the source's evaluation order (subtitle-map literal, then `ebs_warning`,
then the `blocks` literal top to bottom). -/

def sendEc2EventToSlack (info : InstanceInfo) (creator : Option CreatorInfo)
    (action region iid : String) (r1 r2 : Fin 5) : Except PyExc (List Block) := do
  let subRunning := reminders.getD r1.val ""
  let subTerminated ← do
    let u ← csub creator (·.username)
    pure ("Good job " ++ u ++ " 🥰🥰🥰")
  let subStopping := ec2StopReminders.getD r2.val ""
  let ebsRaw ← isub info.ebs_volume_size
  let ebsN ← pyIntEbs ebsRaw
  let ebsWarning := if 1024 < ebsN then largeEbsWarn else ""
  let title ← isub (actionTitleGet action)
  let subtitle ←
    if action = "running" then .ok subRunning
    else if action = "terminated" then .ok subTerminated
    else if action = "stopping" then .ok subStopping
    else .error .keyError
  let nameF ← isub info.name
  let typeF ← isub info.instance_type
  let sizeShow ← isub info.ebs_volume_size
  let volTypeF ← isub info.ebs_volume_type
  let tagsV ← isub info.tags
  let actByF ← csub creator (·.username)
  let arnF ← csub creator (·.user_arn)
  let timeF ← csub creator (·.time)
  .ok
    [ .header title,
      .sectionText subtitle,
      .divider,
      .sectionFields
        [ "*Name:*\n" ++ nameF,
          "*Type:*\n" ++ typeF,
          "*EBS:*\n" ++ pyShowEbsVal sizeShow ++ " GiB (" ++ volTypeF ++ ")" ++ ebsWarning,
          "*Tags:*\n```" ++ pyDumpsTags tagsV ++ "```" ],
      .divider,
      .sectionFields
        [ "*Action By:*\n" ++ actByF,
          "*IAM ARN:*\n" ++ arnF,
          "*Action Type:*\n" ++ action,
          "*Action Time:*\n" ++ timeF ],
      .sectionButton "For more detail information 👉" "Go To AWS EC2" (consoleUrl region iid) ]

/-! ### `create_ec2_event_message` (`src/app/slack/slack_templates.py`, lines 4–128)

This revision reads every dictionary with `.get(k, dflt)`, wraps the
`int(...)` conversion in `try/except (ValueError, TypeError)`, and
supplies default title/subtitle text for unrecognized actions.  The only
way its body can raise is attribute access on a `None` `creator_info`. -/

def createEc2EventMessage (info : InstanceInfo) (creator : Option CreatorInfo)
    (action region iid : String) (r1 r2 : Fin 5) : Except PyExc (List Block) := do
  let subRunning := reminders.getD r1.val ""
  let subTerminated ← do
    let u ← cget creator (·.username) "Unknown"
    pure ("Good job " ++ u ++ " 🥰🥰🥰")
  let subStopping := ec2StopReminders.getD r2.val ""
  let ebsN : Int :=
    match info.ebs_volume_size with
    | none => 0
    | some v => match pyIntEbs v with
      | .ok n => n
      | .error _ => 0
  let ebsWarning := if 1024 < ebsN then largeEbsWarn else ""
  let title := (actionTitleGet action).getD ("ℹ️ EC2 Instance " ++ pyCapitalize action ++ " ℹ️")
  let subtitle :=
    if action = "running" then subRunning
    else if action = "terminated" then subTerminated
    else if action = "stopping" then subStopping
    else "Instance state changed to " ++ action ++ "."
  let actByF ← cget creator (·.username) "Unknown"
  let arnF ← cget creator (·.user_arn) "Unknown"
  let timeF ← cget creator (·.time) "Unknown"
  .ok
    [ .header title,
      .sectionText subtitle,
      .divider,
      .sectionFields
        [ "*Name:*\n" ++ (info.name.getD "N/A"),
          "*Type:*\n" ++ (info.instance_type.getD "N/A"),
          "*EBS:*\n" ++ (match info.ebs_volume_size with
                          | none => "N/A"
                          | some v => pyShowEbsVal v) ++
            " GiB (" ++ (info.ebs_volume_type.getD "N/A") ++ ")" ++ ebsWarning,
          "*Tags:*\n```" ++ pyDumpsTags (info.tags.getD []) ++ "```" ],
      .divider,
      .sectionFields
        [ "*Action By:*\n" ++ actByF,
          "*IAM ARN:*\n" ++ arnF,
          "*Action Type:*\n" ++ action,
          "*Action Time:*\n" ++ timeF ],
      .sectionButton "For more detail information 👉" "Go To AWS EC2" (consoleUrl region iid) ]

/-! ### `send_message` and `lambda_handler` (`src/app/lambda_function.py`,
lines 326–389) -/

/-- A `{"statusCode": ..., "body": ...}` result dictionary. -/
structure LambdaResult where
  statusCode : Nat
  body : String
  deriving DecidableEq, Repr

/-- `send_message`: POSTs the payload once (the HTTP response is the
`(status, text)` argument) and returns the 500 failure dictionary on a
non-200 status — and Python's implicit `None` otherwise. -/
def sendMessage (resp : Nat × String) : Option LambdaResult :=
  if resp.1 ≠ 200 then
    some { statusCode := 500, body := "Slack webhook failed: " ++ resp.2 }
  else none

/-- `lambda_handler`.  The externally-fetched inputs (instance metadata,
resolver output, event fields) are parameters; `post` is the webhook
delivery channel, invoked exactly once per handler run.  The source calls
`send_message(block)` on line 385 without using its return value and then
returns the fixed 200 dictionary. -/
def lambdaHandler (slackUrl : Option String) (info : InstanceInfo)
    (creator : Option CreatorInfo) (state region iid : String) (r1 r2 : Fin 5)
    (post : List Block → Nat × String) : Except PyExc LambdaResult :=
  if pyTruthy slackUrl = false then
    .ok { statusCode := 500,
          body := "Error: SLACK_WEBHOOK_URL environment variable not set." }
  else
    match sendEc2EventToSlack info creator state region iid r1 r2 with
    | .error e => .error e
    | .ok blocks =>
      let _ := sendMessage (post blocks)
      .ok { statusCode := 200, body := "Message sent to Slack!" }

/-! ### Concrete inputs used by individual claim checks -/

/-- The `userIdentity` `"type"` field a record carries (as the code reads
it, through the chain of `.get` defaults). -/
def recUTypeOf (rec : EventRec) : Option String :=
  match rec.cloudTrailEvent with
  | some evt => (userIdentityOf evt).utype
  | none => none

/-- The `userIdentity` `"arn"` field a record carries. -/
def recArnOf (rec : EventRec) : Option String :=
  match rec.cloudTrailEvent with
  | some evt => (userIdentityOf evt).arn
  | none => none

/-- A parsed payload whose instance-ID list sits only under
`requestParameters`. -/
def evtC3 : CloudTrailEvt :=
  { requestParameters := some
      { instancesSet := some { items := some [{ instanceId := some "i-0abc123" }] } } }

/-- A parsed payload whose items, in both locations, carry no truthy
instance ID. -/
def evtC10 : CloudTrailEvt :=
  { responseElements := some
      { instancesSet := some { items := some [{ instanceId := none }, { instanceId := some "" }] } },
    requestParameters := some
      { instancesSet := some { items := some [{ instanceId := none }] } } }

/-- A candidate-matching record whose identity carries a present-but-empty
`"type"` and a non-empty ARN but no username: the fallback label the code
computes for it is the empty string. -/
def recC4Empty : EventRec :=
  { cloudTrailEvent := some
      { responseElements := some
          { instancesSet := some { items := some [{ instanceId := some "i-0c4" }] } },
        userIdentity := some
          { arn := some "arn:aws:iam::111122223333:user/ghost", utype := some "" } },
    eventTime := some 0 }

/-- Audit-log pages holding only `recC4Empty` under `RunInstances`. -/
def svcC4Empty : String → List (List EventRec) :=
  fun n => if n = "RunInstances" then [[recC4Empty]] else []

/-- A well-formed matching record attributing the action to user `alice`. -/
def recC4Good : EventRec :=
  { cloudTrailEvent := some
      { responseElements := some
          { instancesSet := some { items := some [{ instanceId := some "i-0w4" }] } },
        userIdentity := some
          { userName := some "alice", arn := some "arn:aws:iam::111122223333:user/alice" } },
    eventTime := some 0 }

/-- Audit-log pages holding only `recC4Good` under `RunInstances`. -/
def svcC4Good : String → List (List EventRec) :=
  fun n => if n = "RunInstances" then [[recC4Good]] else []

/-- The creator dictionary the resolver returns for `recC4Good`. -/
def creatorC4W : Creator :=
  { time := "19700101 08:00:00",
    user_arn := "arn:aws:iam::111122223333:user/alice",
    username := "alice" }

/-- A candidate-matching record whose identity has no ARN at all. -/
def recC4NoArn : EventRec :=
  { cloudTrailEvent := some
      { responseElements := some
          { instancesSet := some { items := some [{ instanceId := some "i-0w4" }] } },
        userIdentity := some { userName := some "alice" } },
    eventTime := some 0 }

/-- A candidate-matching record with an assumed-role identity whose ARN
has no `/`-separated path (e.g. an account root ARN). -/
def recC5 : EventRec :=
  { cloudTrailEvent := some
      { requestParameters := some
          { instancesSet := some { items := some [{ instanceId := some "i-0bad" }] } },
        userIdentity := some
          { utype := some "AssumedRole", arn := some "arn:aws:iam::111122223333:root" } },
    eventTime := some 0 }

/-- Audit-log pages holding only `recC5` under `StopInstances`. -/
def svcC5 : String → List (List EventRec) :=
  fun n => if n = "StopInstances" then [[recC5]] else []

/-- An assumed-role identity with a `role/MyRole/session-name` ARN and no
direct username or session issuer. -/
def uC6 : UserIdentity :=
  { utype := some "AssumedRole",
    arn := some "arn:aws:iam::111122223333:role/MyRole/session-name" }

/-- A candidate-matching record carrying `uC6`. -/
def recC6 : EventRec :=
  { cloudTrailEvent := some
      { responseElements := some
          { instancesSet := some { items := some [{ instanceId := some "i-0c6" }] } },
        userIdentity := some uC6 },
    eventTime := some 0 }

/-- Audit-log pages holding only `recC6` under `TerminateInstances`. -/
def svcC6 : String → List (List EventRec) :=
  fun n => if n = "TerminateInstances" then [[recC6]] else []

/-- `uC6` additionally carrying a direct username, a session issuer and an
account ID: every disambiguation branch is enabled at once. -/
def uC6Direct : UserIdentity :=
  { uC6 with
    userName := some "direct-user",
    accountId := some "111122223333",
    sessionContext := some
      { sessionIssuer := some { arn := some "arn:aws:iam::111122223333:role/IssuerRole" } } }

/-- `uC6Direct` without the direct username. -/
def uC6Issuer : UserIdentity := { uC6Direct with userName := none }

/-- A federated-user identity. -/
def uC6Fed : UserIdentity :=
  { utype := some "FederatedUser",
    arn := some "arn:aws:sts::111122223333:federated-user/bob" }

/-- An AWS-account identity. -/
def uC6Acct : UserIdentity :=
  { utype := some "AWSAccount",
    arn := some "arn:aws:iam::111122223333:root",
    accountId := some "111122223333" }

/-- An identity of an unrecognized type. -/
def uC6New : UserIdentity := { utype := some "NewIdentityKind", arn := some "arn:x" }

/-- An identity carrying no type at all. -/
def uC6NoType : UserIdentity := { arn := some "arn:x" }

/-- Projection of the EBS field text (4th block, 3rd grid entry) out of a
renderer result. -/
def ebsFieldOf (r : Except PyExc (List Block)) : Option String :=
  match r with
  | .ok bs =>
    match bs.get? 3 with
    | some (.sectionFields fs) => fs.get? 2
    | _ => none
  | .error _ => none

/-- The EBS field text without the warning suffix. -/
def ebsBaseText (shown vtype : String) : String :=
  "*EBS:*\n" ++ shown ++ " GiB (" ++ vtype ++ ")"

/-- A fully-populated instance dictionary with a configurable volume size. -/
def c7info (v : Option EbsVal) : InstanceInfo :=
  { instance_type := some "t3.micro", name := some "web-1",
    ebs_volume_size := v, ebs_volume_type := some "gp2",
    tags := some [("Name", "web-1")] }

/-- A fully-populated creator dictionary. -/
def creatorFull : CreatorInfo :=
  { time := some "20240101 09:00:00",
    user_arn := some "arn:aws:iam::111122223333:user/alice",
    username := some "alice" }

/-- An instance dictionary that is empty apart from an empty tag mapping. -/
def infoEmptyTags : InstanceInfo := { tags := some [] }

/-- A creator dictionary whose `'username'` key is missing. -/
def creatorNoUsername : CreatorInfo :=
  { time := some "20240101 09:00:00",
    user_arn := some "arn:aws:iam::111122223333:user/alice" }

/-! ### Helper lemmas -/

theorem splitChars_ne_nil (sep : Char) (l : List Char) : splitChars sep l ≠ [] := by
  induction l with
  | nil => simp [splitChars]
  | cons c cs ih =>
    simp only [splitChars]
    split
    · simp
    · split
      · simp
      · simp

theorem pySplit_ne_nil (s : String) (sep : Char) : pySplit s sep ≠ [] := by
  simp only [pySplit, ne_eq, List.map_eq_nil_iff]
  exact splitChars_ne_nil sep s.data

theorem pyNegIdx_one_ok (l : List String) (h : l ≠ []) : ∃ s, pyNegIdx l 1 = .ok s := by
  cases hr : l.reverse with
  | nil => exact absurd (List.reverse_eq_nil_iff.mp hr) h
  | cons a t => exact ⟨a, by simp [pyNegIdx, hr]⟩

theorem pyNegIdx_err {l : List String} {k : Nat} {e : PyExc}
    (h : pyNegIdx l k = .error e) : e = .indexError := by
  unfold pyNegIdx at h
  split at h
  · exact absurd h (by simp)
  · exact (Except.error.inj h).symm

theorem pySplitOpt_err {o : Option String} {c : Char} {e : PyExc}
    (h : pySplitOpt o c = .error e) : e = .attributeError := by
  unfold pySplitOpt at h
  split at h
  · exact (Except.error.inj h).symm
  · exact absurd h (by simp)

theorem fallbackUsername_err {u : UserIdentity} {e : PyExc}
    (h : fallbackUsername u = .error e) : e = .attributeError ∨ e = .indexError := by
  unfold fallbackUsername at h
  by_cases h1 : pyTruthy (issuerArnOf u) = true
  · rw [if_pos h1] at h
    cases h2 : pyNegIdx (pySplit ((issuerArnOf u).getD "") '/') 1 with
    | error e2 => simp only [h2] at h; exact .inr ((Except.error.inj h) ▸ pyNegIdx_err h2)
    | ok v => simp only [h2] at h; simp at h
  · rw [if_neg h1] at h
    by_cases h2 : (u.utype == some "AssumedRole") = true
    · rw [if_pos h2] at h
      cases h3 : pySplitOpt u.arn '/' with
      | error e3 => simp only [h3] at h; exact .inl ((Except.error.inj h) ▸ pySplitOpt_err h3)
      | ok parts =>
        simp only [h3] at h
        cases h4 : pyNegIdx parts 2 with
        | error e4 => simp only [h4] at h; exact .inr ((Except.error.inj h) ▸ pyNegIdx_err h4)
        | ok seg2 =>
          simp only [h4] at h
          cases h5 : pyNegIdx (pySplit seg2 ':') 1 with
          | error e5 => simp only [h5] at h; exact .inr ((Except.error.inj h) ▸ pyNegIdx_err h5)
          | ok role =>
            simp only [h5] at h
            cases h6 : pyNegIdx parts 1 with
            | error e6 => simp only [h6] at h; exact .inr ((Except.error.inj h) ▸ pyNegIdx_err h6)
            | ok sess => simp only [h6] at h; simp at h
    · rw [if_neg h2] at h
      by_cases h3 : (u.utype == some "FederatedUser") = true
      · rw [if_pos h3] at h
        cases h4 : pySplitOpt u.arn '/' with
        | error e4 => simp only [h4] at h; exact .inl ((Except.error.inj h) ▸ pySplitOpt_err h4)
        | ok parts =>
          simp only [h4] at h
          cases h5 : pyNegIdx parts 1 with
          | error e5 => simp only [h5] at h; exact .inr ((Except.error.inj h) ▸ pyNegIdx_err h5)
          | ok last => simp only [h5] at h; simp at h
      · rw [if_neg h3] at h
        by_cases h4 : (u.utype == some "AWSAccount") = true
        · rw [if_pos h4] at h; simp at h
        · rw [if_neg h4] at h; simp at h

theorem computeUsername_err {u : UserIdentity} {e : PyExc}
    (h : computeUsername u = .error e) : e = .attributeError ∨ e = .indexError := by
  unfold computeUsername at h
  cases hn : u.userName with
  | none => simp only [hn] at h; exact fallbackUsername_err h
  | some s =>
    simp only [hn] at h
    by_cases hs : s = ""
    · rw [if_pos hs] at h; exact fallbackUsername_err h
    · rw [if_neg hs] at h; simp at h

theorem recordAttempt_err {t : String} {r : EventRec} {e : PyExc}
    (h : recordAttempt t r = .error e) :
    e = .jsonDecodeError ∨ e = .keyError ∨ e = .attributeError ∨ e = .indexError := by
  unfold recordAttempt at h
  cases hev : r.cloudTrailEvent with
  | none => simp only [hev] at h; exact .inl (Except.error.inj h).symm
  | some evt =>
    simp only [hev] at h
    by_cases hc : ((candidateIds evt).contains t) = true
    · rw [if_pos hc] at h
      cases hu : computeUsername (userIdentityOf evt) with
      | error e2 =>
        simp only [hu] at h
        rcases computeUsername_err hu with h' | h'
        · exact .inr (.inr (.inl ((Except.error.inj h) ▸ h')))
        · exact .inr (.inr (.inr ((Except.error.inj h) ▸ h')))
      | ok username =>
        simp only [hu] at h
        by_cases ha : pyTruthy (userIdentityOf evt).arn = true
        · rw [if_pos ha] at h
          cases het : r.eventTime with
          | none => simp only [het] at h; exact .inr (.inl (Except.error.inj h).symm)
          | some tt => simp only [het] at h; simp at h
        · rw [if_neg ha] at h; simp at h
    · rw [if_neg hc] at h; simp at h

theorem processRecord_classify (t : String) (r : EventRec) :
    processRecord t r = .ok none ∨ (∃ c, processRecord t r = .ok (some c)) ∨
      processRecord t r = .error .indexError := by
  unfold processRecord
  cases h : recordAttempt t r with
  | ok v =>
    cases v with
    | none => exact .inl rfl
    | some c => exact .inr (.inl ⟨c, rfl⟩)
  | error e =>
    rcases recordAttempt_err h with he | he | he | he <;> subst he <;> simp

theorem scanRecords_ne_valueError (t : String) (l : List EventRec) :
    scanRecords t l ≠ .error .valueError := by
  induction l with
  | nil => simp [scanRecords]
  | cons r rs ih =>
    simp only [scanRecords]
    rcases processRecord_classify t r with h | ⟨c, h⟩ | h <;> simp [h, ih]

theorem scanPages_ne_valueError (t : String) (ps : List (List EventRec)) :
    scanPages t ps ≠ .error .valueError := by
  induction ps with
  | nil => simp [scanPages]
  | cons p ps ih =>
    simp only [scanPages]
    cases h : scanRecords t p with
    | error e =>
      intro hc
      have he : e = .valueError := Except.error.inj hc
      exact scanRecords_ne_valueError t p (he ▸ h)
    | ok v => cases v <;> simp [ih]

theorem scanNames_ne_valueError (t : String) (svc : String → List (List EventRec))
    (names : List String) : scanNames t svc names ≠ .error .valueError := by
  induction names with
  | nil => simp [scanNames]
  | cons n ns ih =>
    simp only [scanNames]
    cases h : scanPages t (svc n) with
    | error e =>
      intro hc
      have he : e = .valueError := Except.error.inj hc
      exact scanPages_ne_valueError t (svc n) (he ▸ h)
    | ok v => cases v <;> simp [ih]

theorem pyTruthy_some {o : Option String} (h : pyTruthy o = true) :
    ∃ s, o = some s ∧ s ≠ "" := by
  cases o with
  | none => simp [pyTruthy] at h
  | some s => exact ⟨s, rfl, by simpa [pyTruthy] using h⟩

theorem str_append_ne_empty_right (x y : String) (hy : y.data ≠ []) : x ++ y ≠ "" := by
  intro h
  have hd := congrArg String.data h
  rw [String.data_append] at hd
  exact hy (List.append_eq_nil.mp hd).2

theorem str_append_ne_empty_left (x y : String) (hx : x.data ≠ []) : x ++ y ≠ "" := by
  intro h
  have hd := congrArg String.data h
  rw [String.data_append] at hd
  exact hx (List.append_eq_nil.mp hd).1

theorem str_data_append_ne_nil (a b : String) (hb : b.data ≠ []) : (a ++ b).data ≠ [] := by
  rw [String.data_append]
  intro h
  exact hb (List.append_eq_nil.mp h).2

theorem fmtStamp_ne_empty (y mo d h mi s : Nat) : fmtStamp y mo d h mi s ≠ "" := by
  unfold fmtStamp
  apply str_append_ne_empty_left
  apply str_data_append_ne_nil
  decide

theorem strftimeUtc8_ne_empty (e : Nat) : strftimeUtc8 e ≠ "" := by
  unfold strftimeUtc8
  rcases h : civilFromDays ((e + 8 * 3600) / 86400) with ⟨y, mo, d⟩
  exact fmtStamp_ne_empty _ _ _ _ _ _

theorem fallbackUsername_ok_ne_empty {u : UserIdentity} {s : String}
    (h : fallbackUsername u = .ok s) (hut : u.utype ≠ some "") : s ≠ "" := by
  unfold fallbackUsername at h
  by_cases h1 : pyTruthy (issuerArnOf u) = true
  · rw [if_pos h1] at h
    cases h2 : pyNegIdx (pySplit ((issuerArnOf u).getD "") '/') 1 with
    | error _ => simp only [h2] at h; simp at h
    | ok v =>
      simp only [h2] at h
      exact (Except.ok.inj h) ▸ str_append_ne_empty_right _ _ (by decide)
  · rw [if_neg h1] at h
    by_cases h2 : (u.utype == some "AssumedRole") = true
    · rw [if_pos h2] at h
      cases h3 : pySplitOpt u.arn '/' with
      | error _ => simp only [h3] at h; simp at h
      | ok parts =>
        simp only [h3] at h
        cases h4 : pyNegIdx parts 2 with
        | error _ => simp only [h4] at h; simp at h
        | ok seg2 =>
          simp only [h4] at h
          cases h5 : pyNegIdx (pySplit seg2 ':') 1 with
          | error _ => simp only [h5] at h; simp at h
          | ok role =>
            simp only [h5] at h
            cases h6 : pyNegIdx parts 1 with
            | error _ => simp only [h6] at h; simp at h
            | ok sess =>
              simp only [h6] at h
              exact (Except.ok.inj h) ▸ str_append_ne_empty_right _ _ (by decide)
    · rw [if_neg h2] at h
      by_cases h3 : (u.utype == some "FederatedUser") = true
      · rw [if_pos h3] at h
        cases h4 : pySplitOpt u.arn '/' with
        | error _ => simp only [h4] at h; simp at h
        | ok parts =>
          simp only [h4] at h
          cases h5 : pyNegIdx parts 1 with
          | error _ => simp only [h5] at h; simp at h
          | ok last =>
            simp only [h5] at h
            exact (Except.ok.inj h) ▸ str_append_ne_empty_right _ _ (by decide)
      · rw [if_neg h3] at h
        by_cases h4 : (u.utype == some "AWSAccount") = true
        · rw [if_pos h4] at h
          exact (Except.ok.inj h) ▸ str_append_ne_empty_left _ _ (by decide)
        · rw [if_neg h4] at h
          cases hut2 : u.utype with
          | none =>
            simp only [hut2, Option.getD_none] at h
            exact (Except.ok.inj h) ▸ (by decide : ("<unknown_identity>" : String) ≠ "")
          | some v =>
            simp only [hut2, Option.getD_some] at h
            have hv : v ≠ "" := fun hv => hut (hut2.trans (by rw [hv]))
            exact (Except.ok.inj h) ▸ hv

theorem computeUsername_ok_ne_empty {u : UserIdentity} {s : String}
    (h : computeUsername u = .ok s) (hut : u.utype ≠ some "") : s ≠ "" := by
  unfold computeUsername at h
  cases hn : u.userName with
  | none => simp only [hn] at h; exact fallbackUsername_ok_ne_empty h hut
  | some v =>
    simp only [hn] at h
    by_cases hv : v = ""
    · rw [if_pos hv] at h; exact fallbackUsername_ok_ne_empty h hut
    · rw [if_neg hv] at h; exact (Except.ok.inj h) ▸ hv

theorem fallbackUsername_arn_none {u : UserIdentity} (ha : u.arn = none) :
    (∃ s, fallbackUsername u = .ok s) ∨ fallbackUsername u = .error .attributeError := by
  unfold fallbackUsername
  by_cases h1 : pyTruthy (issuerArnOf u) = true
  · rw [if_pos h1]
    obtain ⟨s, hs⟩ := pyNegIdx_one_ok _ (pySplit_ne_nil ((issuerArnOf u).getD "") '/')
    rw [hs]
    exact .inl ⟨_, rfl⟩
  · rw [if_neg h1]
    by_cases h2 : (u.utype == some "AssumedRole") = true
    · rw [if_pos h2, ha]; exact .inr rfl
    · rw [if_neg h2]
      by_cases h3 : (u.utype == some "FederatedUser") = true
      · rw [if_pos h3, ha]; exact .inr rfl
      · rw [if_neg h3]
        by_cases h4 : (u.utype == some "AWSAccount") = true
        · rw [if_pos h4]; exact .inl ⟨_, rfl⟩
        · rw [if_neg h4]; exact .inl ⟨_, rfl⟩

theorem computeUsername_arn_none {u : UserIdentity} (ha : u.arn = none) :
    (∃ s, computeUsername u = .ok s) ∨ computeUsername u = .error .attributeError := by
  unfold computeUsername
  rcases Option.eq_none_or_eq_some u.userName with hn | ⟨v, hn⟩
  · simp only [hn]
    exact fallbackUsername_arn_none ha
  · simp only [hn]
    by_cases hv : v = ""
    · rw [if_pos hv]; exact fallbackUsername_arn_none ha
    · rw [if_neg hv]; exact .inl ⟨v, rfl⟩

theorem processRecord_ok_some {t : String} {rec : EventRec} {c : Creator}
    (h : processRecord t rec = .ok (some c)) : recordAttempt t rec = .ok (some c) := by
  unfold processRecord at h
  cases ha : recordAttempt t rec with
  | ok v =>
    simp only [ha] at h
    exact congrArg Except.ok (Except.ok.inj h)
  | error e => simp only [ha] at h; cases e <;> simp at h

theorem recordAttempt_some_props {t : String} {rec : EventRec} {c : Creator}
    (h : recordAttempt t rec = .ok (some c)) :
    c.user_arn ≠ "" ∧ c.time ≠ "" ∧ (recUTypeOf rec ≠ some "" → c.username ≠ "") := by
  unfold recordAttempt at h
  cases hev : rec.cloudTrailEvent with
  | none => simp only [hev] at h; simp at h
  | some evt =>
    simp only [hev] at h
    by_cases hc : ((candidateIds evt).contains t) = true
    · rw [if_pos hc] at h
      cases hu : computeUsername (userIdentityOf evt) with
      | error e => simp only [hu] at h; simp at h
      | ok username =>
        simp only [hu] at h
        by_cases ha : pyTruthy (userIdentityOf evt).arn = true
        · rw [if_pos ha] at h
          cases het : rec.eventTime with
          | none => simp only [het] at h; simp at h
          | some tt =>
            simp only [het] at h
            have hcc : ({ time := strftimeUtc8 tt,
                          user_arn := (userIdentityOf evt).arn.getD "",
                          username := username } : Creator) = c :=
              Option.some.inj (Except.ok.inj h)
            obtain ⟨s, hs, hns⟩ := pyTruthy_some ha
            refine ⟨?_, ?_, ?_⟩
            · rw [← hcc]
              show ((userIdentityOf evt).arn.getD "") ≠ ""
              rw [hs]
              exact hns
            · rw [← hcc]
              exact strftimeUtc8_ne_empty tt
            · intro hut
              rw [← hcc]
              show username ≠ ""
              refine computeUsername_ok_ne_empty hu ?_
              intro hx
              exact hut (by simp [recUTypeOf, hev, hx])
        · rw [if_neg ha] at h; simp at h
    · rw [if_neg hc] at h; simp at h

theorem processRecord_arn_none {rec : EventRec} (t : String)
    (ha : recArnOf rec = none) : processRecord t rec = .ok none := by
  unfold processRecord
  cases hev : rec.cloudTrailEvent with
  | none => unfold recordAttempt; simp [hev]
  | some evt =>
    have ha' : (userIdentityOf evt).arn = none := by
      simpa [recArnOf, hev] using ha
    unfold recordAttempt
    simp only [hev]
    by_cases hc : ((candidateIds evt).contains t) = true
    · rw [if_pos hc]
      rcases computeUsername_arn_none ha' with ⟨s, hs⟩ | hs
      · rw [hs, ha']
        simp [pyTruthy]
      · rw [hs]
    · rw [if_neg hc]

theorem scanRecords_ok_some {t : String} {l : List EventRec} {c : Creator}
    (h : scanRecords t l = .ok (some c)) : ∃ r ∈ l, processRecord t r = .ok (some c) := by
  induction l with
  | nil => simp [scanRecords] at h
  | cons r rs ih =>
    simp only [scanRecords] at h
    cases hp : processRecord t r with
    | error e => simp only [hp] at h; simp at h
    | ok v =>
      cases v with
      | some c' =>
        simp only [hp] at h
        exact ⟨r, List.mem_cons_self r rs, hp.trans h⟩
      | none =>
        simp only [hp] at h
        obtain ⟨r', hr', hpr⟩ := ih h
        exact ⟨r', List.mem_cons_of_mem _ hr', hpr⟩

theorem scanPages_ok_some {t : String} {ps : List (List EventRec)} {c : Creator}
    (h : scanPages t ps = .ok (some c)) :
    ∃ p ∈ ps, ∃ r ∈ p, processRecord t r = .ok (some c) := by
  induction ps with
  | nil => simp [scanPages] at h
  | cons p ps ih =>
    simp only [scanPages] at h
    cases hp : scanRecords t p with
    | error e => simp only [hp] at h; simp at h
    | ok v =>
      cases v with
      | some c' =>
        simp only [hp] at h
        obtain ⟨r, hr, hpr⟩ := scanRecords_ok_some (hp.trans h)
        exact ⟨p, List.mem_cons_self p ps, r, hr, hpr⟩
      | none =>
        simp only [hp] at h
        obtain ⟨p', hp', hrest⟩ := ih h
        exact ⟨p', List.mem_cons_of_mem _ hp', hrest⟩

theorem scanNames_ok_some {t : String} {svc : String → List (List EventRec)}
    {names : List String} {c : Creator}
    (h : scanNames t svc names = .ok (some c)) :
    ∃ n ∈ names, ∃ p ∈ svc n, ∃ r ∈ p, processRecord t r = .ok (some c) := by
  induction names with
  | nil => simp [scanNames] at h
  | cons n ns ih =>
    simp only [scanNames] at h
    cases hp : scanPages t (svc n) with
    | error e => simp only [hp] at h; simp at h
    | ok v =>
      cases v with
      | some c' =>
        simp only [hp] at h
        obtain ⟨p, hpm, r, hr, hpr⟩ := scanPages_ok_some (hp.trans h)
        exact ⟨n, List.mem_cons_self n ns, p, hpm, r, hr, hpr⟩
      | none =>
        simp only [hp] at h
        obtain ⟨n', hn', hrest⟩ := ih h
        exact ⟨n', List.mem_cons_of_mem _ hn', hrest⟩

/-! ### Claim theorems -/

/-- C2: `get_creator_of_instance` raises its unsupported-state error
(`ValueError`) exactly for target states outside the recognized set — the
spec's `started`/`stopping`/`terminated`, encoded by the trigger strings
`running`/`stopping`/`terminated` (spec §6 and Glossary) — compared
case-insensitively, and never raises that error for states in the set; no
default or fallback event-name mapping exists. -/
theorem c2_unsupported_state_error (st t : String) (svc : String → List (List EventRec)) :
    (pyLower st ∉ (["running", "stopping", "terminated"] : List String) →
        getCreatorOfInstance t st svc = .error .valueError) ∧
    (pyLower st ∈ (["running", "stopping", "terminated"] : List String) →
        getCreatorOfInstance t st svc ≠ .error .valueError) := by
  constructor
  · intro h
    have h1 : pyLower st ≠ "running" := fun e => h (by simp [e])
    have h2 : pyLower st ≠ "stopping" := fun e => h (by simp [e])
    have h3 : pyLower st ≠ "terminated" := fun e => h (by simp [e])
    unfold getCreatorOfInstance nameMapGet
    rw [if_neg h1, if_neg h2, if_neg h3]
  · intro hmem hc
    unfold getCreatorOfInstance at hc
    simp only [List.mem_cons, List.not_mem_nil, or_false] at hmem
    rcases hmem with h | h | h <;> rw [h] at hc <;> simp only [nameMapGet] at hc <;>
      exact scanNames_ne_valueError t svc _ (by simpa using hc)

/-- Witness for C2: the unsupported state `"pending"` raises, while the
supported state `"Stopping"` (case-insensitive) does not. -/
theorem c2_unsupported_state_error_witness :
    getCreatorOfInstance "i-w2" "pending" (fun _ => []) = .error .valueError ∧
    getCreatorOfInstance "i-w2" "Stopping" (fun _ => []) ≠ .error .valueError :=
  ⟨(c2_unsupported_state_error "pending" "i-w2" (fun _ => [])).1 (by decide),
   (c2_unsupported_state_error "Stopping" "i-w2" (fun _ => [])).2 (by decide)⟩

/-- C3: candidate instance IDs come from the `responseElements` location
first; the `requestParameters` location is consulted exactly when the
response-location list is empty, so a record whose IDs appear only in
request parameters still matches the target instance ID. -/
theorem c3_dual_location_extraction (evt : CloudTrailEvt) (t : String) :
    (itemsOf evt.responseElements ≠ [] →
        candidateIds evt = idsOfItems (itemsOf evt.responseElements)) ∧
    (itemsOf evt.responseElements = [] →
        candidateIds evt = idsOfItems (itemsOf evt.requestParameters)) ∧
    (itemsOf evt.responseElements = [] → t ≠ "" →
        ({ instanceId := some t } : Item) ∈ itemsOf evt.requestParameters →
        t ∈ candidateIds evt) := by
  refine ⟨?_, ?_, ?_⟩
  · intro h
    unfold candidateIds extractItems
    rw [if_neg (by simpa [List.isEmpty_iff] using h)]
  · intro h
    unfold candidateIds extractItems
    rw [if_pos (by simpa [List.isEmpty_iff] using h)]
  · intro h ht hm
    unfold candidateIds extractItems
    rw [if_pos (by simpa [List.isEmpty_iff] using h)]
    unfold idsOfItems
    exact List.mem_filterMap.mpr ⟨{ instanceId := some t }, hm, by simp [ht]⟩

/-- Witness for C3: a record carrying its instance ID only under
`requestParameters` still matches that ID. -/
theorem c3_dual_location_extraction_witness :
    "i-0abc123" ∈ candidateIds evtC3 :=
  (c3_dual_location_extraction evtC3 "i-0abc123").2.2 rfl (by decide) (by decide)

/-- C10: items without a truthy `instanceId` contribute nothing to the
candidate list, so a record all of whose items lack one never matches any
target instance. -/
theorem c10_idless_items_never_match (evt : CloudTrailEvt) (t : String)
    (h : ∀ it ∈ itemsOf evt.responseElements ++ itemsOf evt.requestParameters,
        it.instanceId = none ∨ it.instanceId = some "") :
    candidateIds evt = [] ∧ (candidateIds evt).contains t = false ∧
      ∀ (it : Item) (l : List Item), (it.instanceId = none ∨ it.instanceId = some "") →
        idsOfItems (it :: l) = idsOfItems l := by
  have hnil : candidateIds evt = [] := by
    unfold candidateIds idsOfItems
    refine List.filterMap_eq_nil_iff.mpr ?_
    intro it hit
    have hmem : it ∈ itemsOf evt.responseElements ++ itemsOf evt.requestParameters := by
      unfold extractItems at hit
      by_cases he : (itemsOf evt.responseElements).isEmpty = true
      · rw [if_pos he] at hit; exact List.mem_append_right _ hit
      · rw [if_neg he] at hit; exact List.mem_append_left _ hit
    rcases h it hmem with hid | hid <;> simp [hid]
  refine ⟨hnil, ?_, ?_⟩
  · rw [hnil]; rfl
  · intro it l hid
    unfold idsOfItems
    rcases hid with hid | hid <;> simp [List.filterMap_cons, hid]

/-- Witness for C10: a record whose items (in both locations) all lack a
truthy instance ID yields no candidates and matches no target. -/
theorem c10_idless_items_never_match_witness :
    candidateIds evtC10 = [] ∧ (candidateIds evtC10).contains "i-0abc123" = false :=
  ⟨(c10_idless_items_never_match evtC10 "i-0abc123" (by decide)).1,
   (c10_idless_items_never_match evtC10 "i-0abc123" (by decide)).2.1⟩

/-- C4 counterexample: the claim's invariant fails as stated — a matching
record whose identity `"type"` field is present but empty makes the
resolver return a creator dictionary with an *empty* `username`
(actorLabel), i.e. a partially-populated record rather than absent. -/
theorem c4_counterexample_empty_label :
    getCreatorOfInstance "i-0c4" "running" svcC4Empty =
      .ok (some { time := "19700101 08:00:00",
                  user_arn := "arn:aws:iam::111122223333:user/ghost",
                  username := "" }) := by
  rfl

/-- C4 (amended): whenever the resolver returns a creator dictionary, its
`user_arn` and `time` are non-empty, and its `username` is non-empty
provided no scanned record carries a present-but-empty identity `"type"`;
moreover a record without an identity ARN is skipped (the per-record step
yields "continue scanning"), so it is never returned. -/
theorem c4_fully_populated_or_absent :
    (∀ (t st : String) (svc : String → List (List EventRec)) (c : Creator),
        getCreatorOfInstance t st svc = .ok (some c) →
          c.user_arn ≠ "" ∧ c.time ≠ "" ∧
            ((∀ n p r, p ∈ svc n → r ∈ p → recUTypeOf r ≠ some "") → c.username ≠ "")) ∧
    (∀ (t : String) (rec : EventRec), recArnOf rec = none →
        processRecord t rec = .ok none) := by
  constructor
  · intro t st svc c h
    unfold getCreatorOfInstance at h
    cases hm : nameMapGet (pyLower st) with
    | none => simp [hm] at h
    | some names =>
      simp only [hm] at h
      obtain ⟨n, hn, p, hp, r, hr, hpr⟩ := scanNames_ok_some h
      obtain ⟨h1, h2, h3⟩ := recordAttempt_some_props (processRecord_ok_some hpr)
      exact ⟨h1, h2, fun hall => h3 (hall n p r hp hr)⟩
  · intro t rec ha
    exact processRecord_arn_none t ha

/-- Witness for C4 at a concrete well-formed record (all fields non-empty)
and at a concrete ARN-less record (skipped, scan continues). -/
theorem c4_fully_populated_or_absent_witness :
    (creatorC4W.user_arn ≠ "" ∧ creatorC4W.time ≠ "" ∧ creatorC4W.username ≠ "") ∧
    processRecord "i-0w4" recC4NoArn = .ok none := by
  constructor
  · have h := c4_fully_populated_or_absent.1 "i-0w4" "running" svcC4Good creatorC4W rfl
    refine ⟨h.1, h.2.1, h.2.2 ?_⟩
    intro n p r hp hr
    by_cases hn : n = "RunInstances"
    · subst hn
      simp [svcC4Good] at hp
      subst hp
      simp at hr
      subst hr
      decide
    · simp [svcC4Good, hn] at hp
  · exact c4_fully_populated_or_absent.2 "i-0w4" recC4NoArn rfl

/-- C5: at the failing input — a candidate-matching `StopInstances` record
with an assumed-role identity whose ARN has no path — the resolver raises
an uncaught `IndexError` (from `user_arn.split('/')[-2]`, absent from the
`except` tuple), aborting the whole scan instead of skipping the record
and returning absent. -/
theorem c5_uncaught_indexerror_aborts_scan :
    getCreatorOfInstance "i-0bad" "stopping" svcC5 = .error .indexError := by
  rfl

/-- C6: for a matching record with no direct username, no session-issuer
ARN, an assumed-role identity type and ARN `arn:…:role/MyRole/session-name`,
the resolved label is `"MyRole/session-name (AssumedRole)"`; the remaining
conjuncts pin the fixed disambiguation order — direct username first, then
session-issuer ARN, then assumed-role synthesis, then federated user, then
AWS account, then the raw identity-type string, then the unknown-identity
marker. -/
theorem c6_assumed_role_label_and_order :
    getCreatorOfInstance "i-0c6" "terminated" svcC6 =
      .ok (some { time := "19700101 08:00:00",
                  user_arn := "arn:aws:iam::111122223333:role/MyRole/session-name",
                  username := "MyRole/session-name (AssumedRole)" }) ∧
    computeUsername uC6Direct = .ok "direct-user" ∧
    computeUsername uC6Issuer = .ok "IssuerRole (AssumedRole)" ∧
    computeUsername uC6 = .ok "MyRole/session-name (AssumedRole)" ∧
    computeUsername uC6Fed = .ok "bob (Federated)" ∧
    computeUsername uC6Acct = .ok "Account:111122223333" ∧
    computeUsername uC6New = .ok "NewIdentityKind" ∧
    computeUsername uC6NoType = .ok "<unknown_identity>" := by
  exact ⟨rfl, rfl, rfl, rfl, rfl, rfl, rfl, rfl⟩

/-- C1 counterexample: with the actor passed as the resolver's absent
value (Python `None`), the claim fails as stated — both renderer revisions
raise (`AttributeError` from `None.get`, `TypeError` from `None[...]`)
instead of returning a placeholder-filled document. -/
theorem c1_absent_actor_raises :
    createEc2EventMessage infoEmptyTags none "terminated" "us-east-1" "i-0w1" 0 0 =
      .error .attributeError ∧
    sendEc2EventToSlack infoEmptyTags none "terminated" "us-east-1" "i-0w1" 0 0 =
      .error .typeError :=
  ⟨rfl, rfl⟩

/-- C1 (amended): `create_ec2_event_message` is total over every instance
dictionary (empty tag mapping included) and every creator *mapping* —
including the empty mapping that stands in for an unattributed actor — and
then fills every actor-derived field with the `"Unknown"` placeholder; it
is only the literal absent value (`None`) that raises, in both revisions
(see the counterexample). -/
theorem c1_create_render_total (info : InstanceInfo) (c : CreatorInfo)
    (action region iid : String) (r1 r2 : Fin 5) :
    ∃ bs, createEc2EventMessage info (some c) action region iid r1 r2 = .ok bs ∧
      bs.length = 7 ∧
      (c.username = none → c.user_arn = none → c.time = none →
        bs.get? 5 = some (.sectionFields
          ["*Action By:*\nUnknown", "*IAM ARN:*\nUnknown",
           "*Action Type:*\n" ++ action, "*Action Time:*\nUnknown"]) ∧
        (action = "terminated" →
          bs.get? 1 = some (.sectionText "Good job Unknown 🥰🥰🥰"))) := by
  refine ⟨_, rfl, rfl, ?_⟩
  intro h1 h2 h3
  refine ⟨?_, ?_⟩
  · simp only [h1, h2, h3, Option.getD_none]
    rfl
  · intro ha
    subst ha
    simp only [h1, Option.getD_none]
    rfl

/-- Witness for C1: empty tag mapping, empty creator mapping, state
`terminated` — a complete 7-block document with placeholder actor
fields. -/
theorem c1_create_render_total_witness :
    ∃ bs, createEc2EventMessage infoEmptyTags (some {}) "terminated" "us-east-1" "i-0w1" 0 0 =
        .ok bs ∧
      bs.length = 7 ∧
      bs.get? 5 = some (.sectionFields
        ["*Action By:*\nUnknown", "*IAM ARN:*\nUnknown",
         "*Action Type:*\nterminated", "*Action Time:*\nUnknown"]) ∧
      bs.get? 1 = some (.sectionText "Good job Unknown 🥰🥰🥰") := by
  obtain ⟨bs, hok, hlen, hcond⟩ :=
    c1_create_render_total infoEmptyTags {} "terminated" "us-east-1" "i-0w1" 0 0
  obtain ⟨h5, h1⟩ := hcond rfl rfl rfl
  exact ⟨bs, hok, hlen, h5, h1 rfl⟩

/-- C7 counterexample: in `send_ec2_event_to_slack` a non-numeric volume
size raises `ValueError` instead of being treated as not exceeding the
threshold. -/
theorem c7_counterexample_send_raises :
    sendEc2EventToSlack (c7info (some (.str "unknown"))) (some creatorFull)
      "running" "us-east-1" "i-0w7" 0 0 = .error .valueError :=
  rfl

/-- C7 (amended): in `create_ec2_event_message` the rendered volume line
carries the large-volume warning suffix exactly when the numeric size
strictly exceeds 1024; a non-numeric or absent size defaults to 0 — below
the threshold — with no error.  (`send_ec2_event_to_slack` applies the
same strict threshold but raises on a non-numeric or absent size; see the
counterexample.) -/
theorem c7_large_volume_threshold (c : CreatorInfo) (action region iid : String)
    (r1 r2 : Fin 5) :
    (∀ n : Int, 1024 < n →
        ebsFieldOf (createEc2EventMessage (c7info (some (.int n))) (some c)
            action region iid r1 r2) =
          some (ebsBaseText (toString n) "gp2" ++ largeEbsWarn)) ∧
    (∀ n : Int, n ≤ 1024 →
        ebsFieldOf (createEc2EventMessage (c7info (some (.int n))) (some c)
            action region iid r1 r2) =
          some (ebsBaseText (toString n) "gp2")) ∧
    (∀ s t : String, ebsBaseText s t ++ largeEbsWarn ≠ ebsBaseText s t) ∧
    ebsFieldOf (createEc2EventMessage (c7info (some (.str "unknown"))) (some c)
        action region iid r1 r2) =
      some (ebsBaseText "unknown" "gp2") ∧
    ebsFieldOf (createEc2EventMessage (c7info none) (some c)
        action region iid r1 r2) =
      some (ebsBaseText "N/A" "gp2") := by
  refine ⟨?_, ?_, ?_, rfl, rfl⟩
  · intro n hn
    have hred : ebsFieldOf (createEc2EventMessage (c7info (some (.int n))) (some c)
        action region iid r1 r2) =
        some (ebsBaseText (toString n) "gp2" ++ (if 1024 < n then largeEbsWarn else "")) := rfl
    rw [hred, if_pos hn]
  · intro n hn
    have hred : ebsFieldOf (createEc2EventMessage (c7info (some (.int n))) (some c)
        action region iid r1 r2) =
        some (ebsBaseText (toString n) "gp2" ++ (if 1024 < n then largeEbsWarn else "")) := rfl
    rw [hred, if_neg (not_lt.mpr hn), String.append_empty]
  · intro s t h
    have hl := congrArg String.length h
    rw [String.length_append] at hl
    have h0 : 0 < largeEbsWarn.length := by decide
    omega

/-- Witness for C7: size 2048 shows the warning suffix, size 1024 exactly
does not. -/
theorem c7_large_volume_threshold_witness :
    ebsFieldOf (createEc2EventMessage (c7info (some (.int 2048))) (some creatorFull)
        "running" "us-east-1" "i-0w7" 0 0) =
      some (ebsBaseText (toString (2048 : Int)) "gp2" ++ largeEbsWarn) ∧
    ebsFieldOf (createEc2EventMessage (c7info (some (.int 1024))) (some creatorFull)
        "running" "us-east-1" "i-0w7" 0 0) =
      some (ebsBaseText (toString (1024 : Int)) "gp2") := by
  obtain ⟨ha, hb, _, _, _⟩ :=
    c7_large_volume_threshold creatorFull "running" "us-east-1" "i-0w7" 0 0
  exact ⟨ha 2048 (by decide), hb 1024 (by decide)⟩

/-- C8: `send_message` does produce a 500 failure dictionary on a non-200
webhook response (and performs no retry), but `lambda_handler` discards
that result and reports `statusCode` 200 — the delivery failure never
reaches the invocation boundary, contradicting the claim and the
handler's own docstring. -/
theorem c8_delivery_failure_not_surfaced :
    sendMessage (404, "no_service") =
      some { statusCode := 500, body := "Slack webhook failed: no_service" } ∧
    lambdaHandler (some "https://hooks.slack.example/T000/B000") (c7info (some (.int 8)))
        (some creatorFull) "running" "us-east-1" "i-0w8" 0 0 (fun _ => (404, "no_service")) =
      .ok { statusCode := 200, body := "Message sent to Slack!" } :=
  ⟨rfl, rfl⟩

/-- C9: the `action_sub_title_map` literal in `send_ec2_event_to_slack`
evaluates all three state subtitles eagerly, `creator_info['username']`
among them, so a creator mapping lacking `'username'` raises `KeyError`
regardless of the action type being rendered. -/
theorem c9_eager_username_subscript (info : InstanceInfo) (c : CreatorInfo)
    (h : c.username = none) (action region iid : String) (r1 r2 : Fin 5) :
    sendEc2EventToSlack info (some c) action region iid r1 r2 = .error .keyError := by
  unfold sendEc2EventToSlack
  rw [show csub (some c) (·.username) = .error .keyError from by simp [csub, isub, h]]
  rfl

/-- Witness for C9: a concrete username-less creator mapping raises even
for the `running` state, which never interpolates the username. -/
theorem c9_eager_username_subscript_witness :
    sendEc2EventToSlack infoEmptyTags (some creatorNoUsername) "running" "us-east-1" "i-0w9" 0 0 =
      .error .keyError :=
  c9_eager_username_subscript infoEmptyTags creatorNoUsername rfl "running" "us-east-1" "i-0w9" 0 0

end FinOps
